import Mathlib

/-!
# AudioRecorder: WAVE container encoder and blocking capture transaction

A shallow embedding of `src/AudioRecorder.h` and `src/AudioRecorder.cpp`.

Conventions of the embedding

* A `BYTE`, `WORD` or `DWORD` is a `Nat`; arithmetic performed by the source on
  unsigned 32-bit operands is reduced `% 2 ^ 32` at the place where the source
  performs it.
* The object representation `((BYTE*)&x)[i]` is the little-endian one of the
  platform the source is written for (Windows, x86/x64).
* `std::vector<BYTE>` is a `List Nat`; an `operator[]` access outside the
  vector and a read outside the capture buffer are undefined behaviour and are
  reported as a `Fault`.
* The waveform-audio device and the allocator are external: their answers are
  collected in a `Device` record, and `record` emits the trace of calls it
  makes.
-/

/-! ## Constants and types of the platform -/

/-- The number of values of a `BYTE`. -/
def BYTE_RANGE : Nat := 2 ^ 8

/-- The number of values of a `WORD`. -/
def WORD_RANGE : Nat := 2 ^ 16

/-- The number of values of a `DWORD`. -/
def DWORD_RANGE : Nat := 2 ^ 32

/-- Windows SDK (`mmsystem.h`): the `MMRESULT` of a successful call. -/
def MMSYSERR_NOERROR : Nat := 0

/-- Windows SDK (`mmreg.h`): the format tag of linear PCM. -/
def WAVE_FORMAT_PCM : Nat := 1

/-- Windows SDK (`mmsystem.h`): the bit of `WAVEHDR::dwFlags` the driver sets
when it is finished with a buffer. -/
def WHDR_DONE : Nat := 1

/-- The multi-character constant `'FFIR'` (its value is `0x46464952`, see the
source comment on `ChunkID`). -/
def FFIR : Nat := 0x46464952

/-- The multi-character constant `'EVAW'`. -/
def EVAW : Nat := 0x45564157

/-- The multi-character constant `' tmf'`. -/
def TMF : Nat := 0x20746D66

/-- The multi-character constant `'atad'`. -/
def ATAD : Nat := 0x61746164

/-- The fields of `WAVEFORMATEX` (Windows SDK): `WORD wFormatTag`,
`WORD nChannels`, `DWORD nSamplesPerSec`, `DWORD nAvgBytesPerSec`,
`WORD nBlockAlign`, `WORD wBitsPerSample`, `WORD cbSize`. -/
structure WAVEFORMATEX where
  wFormatTag : Nat
  nChannels : Nat
  nSamplesPerSec : Nat
  nAvgBytesPerSec : Nat
  nBlockAlign : Nat
  wBitsPerSample : Nat
  cbSize : Nat
deriving DecidableEq, Repr

/-- The answers of the allocator and of the waveform-audio device, which the
source obtains through `malloc` and the `waveIn*` functions. -/
structure Device where
  /-- The `MMRESULT` of `waveInOpen`. -/
  waveInOpenResult : Nat
  /-- The handle `waveInOpen` stores when it succeeds. -/
  openedHandle : Nat
  /-- The pointer returned by `malloc`; 0 is the null pointer. -/
  mallocResult : Nat
  /-- The `MMRESULT` of `waveInPrepareHeader`. -/
  waveInPrepareHeaderResult : Nat
  /-- The `MMRESULT` of `waveInAddBuffer`. -/
  waveInAddBufferResult : Nat
  /-- The `MMRESULT` of `waveInStart`. -/
  waveInStartResult : Nat
  /-- The value of `audioDataHeader.dwFlags` read by the evaluation number `t`
  (counted from 0) of the condition of the waiting loop. -/
  dwFlagsAt : Nat → Nat
  /-- The value of `audioDataHeader.dwBytesRecorded` once the buffer is done. -/
  dwBytesRecorded : Nat
  /-- The byte at each offset of the capture buffer once the buffer is done. -/
  bufferByte : Nat → Nat

/-! ## Data model -/

/-- The data members of `class AudioRecorder`. -/
structure AudioRecorder where
  audioDeviceHandle : Nat
  audioDataFormat : WAVEFORMATEX
deriving DecidableEq, Repr

namespace AudioRecorder

/-- Source: `static const DWORD SAMPLING_RATE = 44100;` -/
def SAMPLING_RATE : Nat := 44100

/-- Source: `static const DWORD AUDIO_DATA_BUFFER_LENGTH_FOR_1_SECOND_OF_RECORDING = 176400;` -/
def AUDIO_DATA_BUFFER_LENGTH_FOR_1_SECOND_OF_RECORDING : Nat := 176400

/-- The byte `((BYTE*)&x)[i]` of an unsigned integer object `x`. -/
def byteOf (x : Nat) (i : Nat) : Nat := x / 256 ^ i % 256

/-- The object representation of an unsigned integer of `size` bytes. -/
def objectBytes (size : Nat) (x : Nat) : List Nat :=
  (List.range size).map (byteOf x)

/-- The object representation of a `DWORD` array. -/
def dwordArrayBytes (xs : List Nat) : List Nat :=
  xs.flatMap (objectBytes 4)

/-- Undefined behaviour and divergence inside `getAudioFileContent`. -/
inductive Fault where
  /-- An access `audioFileContent[fileCurrentWritingPosition]` outside the vector. -/
  | vectorIndexOutOfRange
  /-- A read of the source object or of `audioDataBuffer` outside its extent. -/
  | readOutOfRange
  /-- The loop counter reached the end of its type's range: it restarts at 0
  below a bound it can never reach, so the loop does not terminate. -/
  | counterWrap
deriving DecidableEq, Repr

/-- The vector under construction, the `DWORD fileCurrentWritingPosition`, and
(as a log that the source does not keep) the indices passed to `operator[]`,
oldest first. -/
structure Writer where
  audioFileContent : List Nat
  fileCurrentWritingPosition : Nat
  written : List Nat
deriving DecidableEq, Repr

/-! ## The encoder -/

/-- The loop
`for(T i = i; i < bound; i++, fileCurrentWritingPosition++)
   audioFileContent[fileCurrentWritingPosition] = src[i];`
where `T` has `counterRange` values (`BYTE` in the loops over the header
fields, `DWORD` in the loop over the audio data). -/
def copyLoop (counterRange : Nat) (src : List Nat) (bound : Nat) (i : Nat) (w : Writer) :
    Except Fault Writer :=
  if i < bound then
    match src[i]? with
    | none => .error .readOutOfRange
    | some b =>
      if w.fileCurrentWritingPosition < w.audioFileContent.length then
        if i + 1 < counterRange then
          copyLoop counterRange src bound (i + 1)
            { audioFileContent := w.audioFileContent.set w.fileCurrentWritingPosition b
              fileCurrentWritingPosition := (w.fileCurrentWritingPosition + 1) % DWORD_RANGE
              written := w.written ++ [w.fileCurrentWritingPosition] }
        else .error .counterWrap
      else .error .vectorIndexOutOfRange
  else .ok w
termination_by bound - i

/-- The first loop, whose counter is the writing position itself:
`for(; fileCurrentWritingPosition < bound; fileCurrentWritingPosition++)
   audioFileContent[fileCurrentWritingPosition] = src[fileCurrentWritingPosition];` -/
def positionLoop (src : List Nat) (bound : Nat) (w : Writer) : Except Fault Writer :=
  if w.fileCurrentWritingPosition < bound then
    match src[w.fileCurrentWritingPosition]? with
    | none => .error .readOutOfRange
    | some b =>
      if w.fileCurrentWritingPosition < w.audioFileContent.length then
        if w.fileCurrentWritingPosition + 1 < DWORD_RANGE then
          positionLoop src bound
            { audioFileContent := w.audioFileContent.set w.fileCurrentWritingPosition b
              fileCurrentWritingPosition := w.fileCurrentWritingPosition + 1
              written := w.written ++ [w.fileCurrentWritingPosition] }
        else .error .counterWrap
      else .error .vectorIndexOutOfRange
  else .ok w
termination_by bound - w.fileCurrentWritingPosition

/-- Source: `DWORD riffChunkDescriptor[3] = { 'FFIR', 36 + audioDataBufferSize, 'EVAW' };` -/
def riffChunkDescriptor (audioDataBufferSize : Nat) : List Nat :=
  [FFIR, (36 + audioDataBufferSize) % DWORD_RANGE, EVAW]

/-- The size the vector is constructed with: `riffChunkDescriptor[1] + 8`. -/
def allocatedSize (audioDataBufferSize : Nat) : Nat :=
  ((36 + audioDataBufferSize) % DWORD_RANGE + 8) % DWORD_RANGE

/-- Source: `DWORD subchunk1[2] = { ' tmf', 16 };` -/
def subchunk1 : List Nat := [TMF, 16]

/-- Source: `DWORD byteRate = nSamplesPerSec * nChannels * wBitsPerSample / 8;` -/
def byteRate (audioDataFormat : WAVEFORMATEX) : Nat :=
  (audioDataFormat.nSamplesPerSec * audioDataFormat.nChannels * audioDataFormat.wBitsPerSample)
    % DWORD_RANGE / 8

/-- Source: `DWORD subchunk2[2] = { 'atad', audioDataBufferSize };` -/
def subchunk2 (audioDataBufferSize : Nat) : List Nat :=
  [ATAD, audioDataBufferSize]

/-- The body of `AudioRecorder::getAudioFileContent`, returning the whole final
state of the writer. `audioDataBuffer` is the region the pointer refers to. -/
def getAudioFileContentWriter (audioDataFormat : WAVEFORMATEX) (audioDataBuffer : List Nat)
    (audioDataBufferSize : Nat) : Except Fault Writer := do
  let w : Writer :=
    { audioFileContent := List.replicate (allocatedSize audioDataBufferSize) 0
      fileCurrentWritingPosition := 0
      written := [] }
  let w ← positionLoop (dwordArrayBytes (riffChunkDescriptor audioDataBufferSize)) 12 w
  let w ← copyLoop BYTE_RANGE (dwordArrayBytes subchunk1) 8 0 w
  let w ← copyLoop BYTE_RANGE (objectBytes 2 audioDataFormat.wFormatTag) 2 0 w
  let w ← copyLoop BYTE_RANGE (objectBytes 2 audioDataFormat.nChannels) 2 0 w
  let w ← copyLoop BYTE_RANGE (objectBytes 4 audioDataFormat.nSamplesPerSec) 4 0 w
  let w ← copyLoop BYTE_RANGE (objectBytes 4 (byteRate audioDataFormat)) 4 0 w
  let w ← copyLoop BYTE_RANGE (objectBytes 2 audioDataFormat.nBlockAlign) 2 0 w
  let w ← copyLoop BYTE_RANGE (objectBytes 2 audioDataFormat.wBitsPerSample) 2 0 w
  let w ← copyLoop BYTE_RANGE (dwordArrayBytes (subchunk2 audioDataBufferSize)) 8 0 w
  copyLoop DWORD_RANGE audioDataBuffer audioDataBufferSize 0 w

/-- The member function `AudioRecorder::getAudioFileContent`: the returned vector. -/
def getAudioFileContent (self : AudioRecorder) (audioDataBuffer : List Nat)
    (audioDataBufferSize : Nat) : Except Fault (List Nat) :=
  match getAudioFileContentWriter self.audioDataFormat audioDataBuffer audioDataBufferSize with
  | .error fault => .error fault
  | .ok w => .ok w.audioFileContent

/-- The constructor `AudioRecorder::AudioRecorder()`. The handle stays `NULL` when `waveInOpen`
fails; the result of `waveInOpen` is not looked at. -/
def constructor (dev : Device) : AudioRecorder :=
  let wFormatTag := WAVE_FORMAT_PCM
  let nChannels := 2
  let nSamplesPerSec := SAMPLING_RATE
  let wBitsPerSample := 16
  let nBlockAlign := nChannels * wBitsPerSample / 8 % WORD_RANGE
  let nAvgBytesPerSec := nSamplesPerSec * nBlockAlign % DWORD_RANGE
  { audioDeviceHandle := if dev.waveInOpenResult = MMSYSERR_NOERROR then dev.openedHandle else 0
    audioDataFormat :=
      { wFormatTag := wFormatTag
        nChannels := nChannels
        nSamplesPerSec := nSamplesPerSec
        nAvgBytesPerSec := nAvgBytesPerSec
        nBlockAlign := nBlockAlign
        wBitsPerSample := wBitsPerSample
        cbSize := 0 } }

/-! ## The capture transaction -/

/-- The calls `record` makes, with the arguments that matter here. -/
inductive Call where
  | malloc (size : Nat)
  | waveInPrepareHeader (hwi lpData dwBufferLength dwFlags : Nat)
  | waveInAddBuffer (hwi : Nat)
  | waveInStart (hwi : Nat)
  | Sleep (dwMilliseconds : Nat)
  | waveInReset (hwi : Nat)
  | getAudioFileContent (audioDataBuffer audioDataBufferSize : Nat)
  | waveInUnprepareHeader (hwi : Nat)
  | free (block : Nat)
deriving DecidableEq, Repr

/-- The `std::runtime_error` thrown by `record`, by its message:
`"waveInPrepareHeader failed with code "`, `"waveInAddBuffer failed with code "`
or `"waveInStart failed with code "`, followed by the result code. -/
inductive RuntimeError where
  | waveInPrepareHeaderFailed (result : Nat)
  | waveInAddBufferFailed (result : Nat)
  | waveInStartFailed (result : Nat)
deriving DecidableEq, Repr

/-- How a call of `record` ends. -/
inductive Outcome where
  /-- Source: `return audioFileContent;` -/
  | returned (audioFileContent : List Nat)
  /-- Source: `throw std::runtime_error(...)` -/
  | thrown (what : RuntimeError)
  /-- Undefined behaviour inside `getAudioFileContent`. -/
  | undefinedBehaviour (fault : Fault)
  /-- The waiting loop is still polling after `fuel` evaluations of its condition. -/
  | stillWaiting
deriving DecidableEq, Repr

/-- The calls made by `record`, oldest first, and how it ended. -/
structure Run where
  trace : List Call
  outcome : Outcome
deriving DecidableEq, Repr

/-- The loop `while(!(audioDataHeader.dwFlags & WHDR_DONE)) Sleep(1);` started
at evaluation number `t` of its condition: the number of the evaluation that
finds the flag set, if one of the next `fuel` evaluations does. -/
def waitLoop (dwFlagsAt : Nat → Nat) : Nat → Nat → Option Nat
  | 0, _ => none
  | fuel + 1, t =>
    if dwFlagsAt t &&& WHDR_DONE = 0 then waitLoop dwFlagsAt fuel (t + 1) else some t

/-- The region `audioDataHeader.lpData` points to when the buffer is done:
`dwBufferLength` bytes, or nothing behind a null pointer. -/
def captureBuffer (dev : Device) (lpData dwBufferLength : Nat) : List Nat :=
  if lpData = 0 then [] else (List.range dwBufferLength).map dev.bufferByte

/-- The member function `AudioRecorder::record`. `fuel` bounds the number of
evaluations of the waiting loop's condition. -/
def record (self : AudioRecorder) (dev : Device) (fuel : Nat) (duration : Nat) : Run :=
  let dwFlags := 0
  let dwBufferLength := AUDIO_DATA_BUFFER_LENGTH_FOR_1_SECOND_OF_RECORDING * duration % DWORD_RANGE
  let lpData := dev.mallocResult
  let trace :=
    [Call.malloc (AUDIO_DATA_BUFFER_LENGTH_FOR_1_SECOND_OF_RECORDING * duration % DWORD_RANGE),
     Call.waveInPrepareHeader self.audioDeviceHandle lpData dwBufferLength dwFlags]
  let result := dev.waveInPrepareHeaderResult
  if result ≠ MMSYSERR_NOERROR then
    { trace := trace ++ [Call.free lpData]
      outcome := .thrown (.waveInPrepareHeaderFailed result) }
  else
    let trace := trace ++ [Call.waveInAddBuffer self.audioDeviceHandle]
    let result := dev.waveInAddBufferResult
    if result ≠ MMSYSERR_NOERROR then
      { trace := trace ++ [Call.waveInUnprepareHeader self.audioDeviceHandle, Call.free lpData]
        outcome := .thrown (.waveInAddBufferFailed result) }
    else
      let trace := trace ++ [Call.waveInStart self.audioDeviceHandle]
      let result := dev.waveInStartResult
      if result ≠ MMSYSERR_NOERROR then
        { trace := trace ++ [Call.waveInReset self.audioDeviceHandle,
            Call.waveInUnprepareHeader self.audioDeviceHandle, Call.free lpData]
          outcome := .thrown (.waveInStartFailed result) }
      else
        match waitLoop dev.dwFlagsAt fuel 0 with
        | none =>
          { trace := trace ++ List.replicate fuel (Call.Sleep 1)
            outcome := .stillWaiting }
        | some sleeps =>
          let trace := trace ++ List.replicate sleeps (Call.Sleep 1) ++
            [Call.waveInReset self.audioDeviceHandle,
             Call.getAudioFileContent lpData dev.dwBytesRecorded]
          match self.getAudioFileContent (captureBuffer dev lpData dwBufferLength)
              dev.dwBytesRecorded with
          | .error fault =>
            { trace := trace
              outcome := .undefinedBehaviour fault }
          | .ok audioFileContent =>
            { trace := trace ++
                [Call.waveInUnprepareHeader self.audioDeviceHandle, Call.free lpData]
              outcome := .returned audioFileContent }

/-- The 44 bytes in front of the audio data: the object representations of the
source's arrays and fields, in the order in which the loops copy them. -/
def headerBytes (audioDataFormat : WAVEFORMATEX) (audioDataBufferSize : Nat) : List Nat :=
  dwordArrayBytes (riffChunkDescriptor audioDataBufferSize) ++
  dwordArrayBytes subchunk1 ++
  objectBytes 2 audioDataFormat.wFormatTag ++
  objectBytes 2 audioDataFormat.nChannels ++
  objectBytes 4 audioDataFormat.nSamplesPerSec ++
  objectBytes 4 (byteRate audioDataFormat) ++
  objectBytes 2 audioDataFormat.nBlockAlign ++
  objectBytes 2 audioDataFormat.wBitsPerSample ++
  dwordArrayBytes (subchunk2 audioDataBufferSize)

/-- The sizes of the objects copied by the loops whose counter is a `BYTE`:
`subchunk1`, `wFormatTag`, `nChannels`, `nSamplesPerSec`, `byteRate`,
`nBlockAlign`, `wBitsPerSample` and `subchunk2`. -/
def byteCounterBounds : List Nat := [8, 2, 2, 4, 4, 2, 2, 8]

/-- Whether a call is a call of `free`. -/
def Call.isFree : Call → Bool
  | .free _ => true
  | _ => false

/-! ## The vocabulary of the specification -/

/-- The specification's `LE16`: a 16-bit value, least significant byte first. -/
def LE16 (v : Nat) : List Nat := [v % 256, v / 256 % 256]

/-- The specification's `LE32`: a 32-bit value, least significant byte first. -/
def LE32 (v : Nat) : List Nat :=
  [v % 256, v / 256 % 256, v / 65536 % 256, v / 16777216 % 256]

/-- The bytes of an ASCII tag such as `"RIFF"`. -/
def ascii (tag : String) : List Nat := tag.toList.map Char.toNat

/-- The container the specification describes for the constructor's format
(tag 1, 2 channels, 44100 Hz, 16 bits) and a payload. -/
def specContainer (payload : List Nat) : List Nat :=
  ascii "RIFF" ++ LE32 (36 + payload.length) ++ ascii "WAVE" ++ ascii "fmt " ++ LE32 16 ++
    LE16 1 ++ LE16 2 ++ LE32 44100 ++ LE32 176400 ++ LE16 4 ++ LE16 16 ++ ascii "data" ++
    LE32 payload.length ++ payload

/-- The format of the specification's concrete scenario, with the format tag
and the derived fields written out. -/
def scenarioFormat : WAVEFORMATEX :=
  { wFormatTag := 1
    nChannels := 2
    nSamplesPerSec := 44100
    nAvgBytesPerSec := 176400
    nBlockAlign := 4
    wBitsPerSample := 16
    cbSize := 0 }

/-- The 48 bytes of the specification's concrete scenario. -/
def scenarioContainer : List Nat :=
  [0x52, 0x49, 0x46, 0x46, 40, 0, 0, 0, 0x57, 0x41, 0x56, 0x45,
   0x66, 0x6D, 0x74, 0x20, 16, 0, 0, 0, 1, 0, 2, 0, 0x44, 0xAC, 0, 0, 0x10, 0xB1, 0x02, 0,
   4, 0, 16, 0, 0x64, 0x61, 0x74, 0x61, 4, 0, 0, 0, 0x00, 0x01, 0x02, 0x03]

/-- Parsing an unsigned little-endian 32-bit integer at a byte offset. -/
def parseLE32 (bytes : List Nat) (offset : Nat) : Option Nat :=
  match bytes.drop offset with
  | b0 :: b1 :: b2 :: b3 :: _ => some (b0 + 256 * b1 + 65536 * b2 + 16777216 * b3)
  | _ => none

/-- The error kinds the specification names. -/
inductive ErrorKind where
  | DeviceUnavailable
  | PrepareFailed
  | QueueFailed
  | StartFailed
  | OutOfMemory
  | PayloadTooLarge
deriving DecidableEq, Repr

/-- The specification's name for each exception `record` throws. -/
def errorKind : RuntimeError → ErrorKind
  | .waveInPrepareHeaderFailed _ => .PrepareFailed
  | .waveInAddBufferFailed _ => .QueueFailed
  | .waveInStartFailed _ => .StartFailed

/-! ## Concrete devices -/

/-- A device on which every call succeeds and the buffer is done at the first
look, with 4 bytes recorded. -/
def readyDevice : Device :=
  { waveInOpenResult := 0
    openedHandle := 1
    mallocResult := 4096
    waveInPrepareHeaderResult := 0
    waveInAddBufferResult := 0
    waveInStartResult := 0
    dwFlagsAt := fun _ => WHDR_DONE
    dwBytesRecorded := 4
    bufferByte := fun i => i % 256 }

/-- No device can be opened (`MMSYSERR_NODRIVER`, 6), and the calls on the null
handle are refused with `MMSYSERR_INVALHANDLE` (5). -/
def absentDevice : Device :=
  { readyDevice with
    waveInOpenResult := 6
    waveInPrepareHeaderResult := 5
    waveInAddBufferResult := 5
    waveInStartResult := 5 }

/-- The allocation fails, and the device refuses the header without a buffer
with `MMSYSERR_INVALPARAM` (11). -/
def outOfMemoryDevice : Device :=
  { readyDevice with
    mallocResult := 0
    waveInPrepareHeaderResult := 11 }

/-- A device on which `waveInPrepareHeader` fails with `MMSYSERR_NOMEM` (7). -/
def prepareFailingDevice : Device :=
  { readyDevice with waveInPrepareHeaderResult := 7 }

/-- A device on which `waveInAddBuffer` fails with `WAVERR_UNPREPARED` (34). -/
def queueFailingDevice : Device :=
  { readyDevice with waveInAddBufferResult := 34 }

/-- A device on which `waveInStart` fails with `MMSYSERR_NODRIVER` (6). -/
def startFailingDevice : Device :=
  { readyDevice with waveInStartResult := 6 }

/-- The device sets the done flag at the third look, with 4 bytes recorded. -/
def slowDevice : Device :=
  { readyDevice with dwFlagsAt := fun t => if t < 2 then 0 else WHDR_DONE }

/-- The device sets the done flag at the third look and fills 16 bytes short
of 4 GiB. -/
def wrappingDevice : Device :=
  { readyDevice with
    dwFlagsAt := fun t => if t < 2 then 0 else WHDR_DONE
    dwBytesRecorded := 4294967280 }

/-- A duration for which `176400 * duration` is `2^32 - 16` modulo `2^32`. -/
def wrappingDuration : Nat := 205642255

/-! ## Lemmas about the copy loop -/

theorem length_objectBytes (size x : Nat) : (objectBytes size x).length = size := by
  simp [objectBytes]

/-- The first loop is the copy loop whose counter is the writing position. -/
theorem positionLoop_eq_copyLoop (src : List Nat) (bound : Nat) :
    ∀ (k : Nat) (w : Writer), bound - w.fileCurrentWritingPosition = k →
      positionLoop src bound w =
        copyLoop DWORD_RANGE src bound w.fileCurrentWritingPosition w := by
  intro k
  induction k with
  | zero =>
    intro w hk
    have hib : ¬ w.fileCurrentWritingPosition < bound := by omega
    rw [positionLoop, copyLoop]
    simp [hib]
  | succ k ih =>
    intro w hk
    have hib : w.fileCurrentWritingPosition < bound := by omega
    rw [positionLoop, copyLoop]
    simp only [hib, if_true]
    cases src[w.fileCurrentWritingPosition]? with
    | none => rfl
    | some b =>
      simp only
      by_cases hv : w.fileCurrentWritingPosition < w.audioFileContent.length
      · by_cases hc : w.fileCurrentWritingPosition + 1 < DWORD_RANGE
        · simp only [hv, hc, if_true, Nat.mod_eq_of_lt hc]
          exact ih _ (by simp only; omega)
        · simp [hv, hc]
      · simp [hv]

/-- A loop whose remaining `k` iterations fit into the vector stores the next
`k` source bytes behind the bytes already written and advances the position by
`k`. -/
theorem copyLoop_ok (counterRange : Nat) (src : List Nat) (bound : Nat)
    (hsrc : bound ≤ src.length) (hrange : bound < counterRange) :
    ∀ (k i : Nat) (done rest log : List Nat), bound - i = k → i ≤ bound →
      (done ++ rest).length < DWORD_RANGE → k ≤ rest.length →
      copyLoop counterRange src bound i
          { audioFileContent := done ++ rest
            fileCurrentWritingPosition := done.length
            written := log } =
        .ok { audioFileContent := done ++ (src.drop i).take k ++ rest.drop k
              fileCurrentWritingPosition := done.length + k
              written := log ++ List.range' done.length k } := by
  intro k
  induction k with
  | zero =>
    intro i done rest log hk hi _ _
    have hib : ¬ i < bound := by omega
    rw [copyLoop]
    simp [hib]
  | succ k ih =>
    intro i done rest log hk hi hlen hrest
    have hib : i < bound := by omega
    have hisrc : i < src.length := by omega
    obtain ⟨r, rest', rfl⟩ : ∃ r rest', rest = r :: rest' := by
      cases rest with
      | nil => simp at hrest
      | cons r rest' => exact ⟨r, rest', rfl⟩
    have hpos : done.length < (done ++ r :: rest').length := by simp
    have hctr : i + 1 < counterRange := by omega
    have hmod : (done.length + 1) % DWORD_RANGE = (done ++ [src[i]]).length := by
      simp only [List.length_append, List.length_cons, List.length_nil] at hlen ⊢
      exact Nat.mod_eq_of_lt (by omega)
    have hset : (done ++ r :: rest').set done.length src[i] = (done ++ [src[i]]) ++ rest' := by
      simp
    rw [copyLoop]
    simp only [hib, if_true, List.getElem?_eq_getElem hisrc, hpos, hctr, hmod, hset]
    have hlen' : ((done ++ [src[i]]) ++ rest').length < DWORD_RANGE := by
      simpa using hlen
    have hrest' : k ≤ rest'.length := by simpa using hrest
    rw [ih (i + 1) (done ++ [src[i]]) rest' (log ++ [done.length]) (by omega) (by omega)
      hlen' hrest']
    have hdrop : (src.drop i).take (k + 1) = src[i] :: (src.drop (i + 1)).take k := by
      rw [List.drop_eq_getElem_cons hisrc, List.take_succ_cons]
    have hrange' : List.range' done.length (k + 1) =
        done.length :: List.range' (done.length + 1) k := by
      rw [List.range'_succ]
    simp [hdrop, hrange', Nat.add_assoc, Nat.add_comm 1 k]

/-- A loop that has more iterations left than the vector has room stops in an
out-of-range access of the vector. -/
theorem copyLoop_fault (counterRange : Nat) (src : List Nat) (bound : Nat)
    (hsrc : bound ≤ src.length) (hrange : bound < counterRange) :
    ∀ (m i : Nat) (done rest log : List Nat), rest.length = m → i ≤ bound →
      (done ++ rest).length < DWORD_RANGE → rest.length < bound - i →
      copyLoop counterRange src bound i
          { audioFileContent := done ++ rest
            fileCurrentWritingPosition := done.length
            written := log } = .error .vectorIndexOutOfRange := by
  intro m
  induction m with
  | zero =>
    intro i done rest log hm hi _ hlt
    have hib : i < bound := by omega
    have hisrc : i < src.length := by omega
    have hnil : rest = [] := List.length_eq_zero.mp hm
    subst hnil
    rw [copyLoop]
    simp [hib, List.getElem?_eq_getElem hisrc]
  | succ m ih =>
    intro i done rest log hm hi hlen hlt
    have hib : i < bound := by omega
    have hisrc : i < src.length := by omega
    obtain ⟨r, rest', rfl⟩ : ∃ r rest', rest = r :: rest' := by
      cases rest with
      | nil => simp at hm
      | cons r rest' => exact ⟨r, rest', rfl⟩
    have hpos : done.length < (done ++ r :: rest').length := by simp
    have hctr : i + 1 < counterRange := by omega
    have hmod : (done.length + 1) % DWORD_RANGE = (done ++ [src[i]]).length := by
      simp only [List.length_append, List.length_cons, List.length_nil] at hlen ⊢
      exact Nat.mod_eq_of_lt (by omega)
    have hset : (done ++ r :: rest').set done.length src[i] = (done ++ [src[i]]) ++ rest' := by
      simp
    rw [copyLoop]
    simp only [hib, if_true, List.getElem?_eq_getElem hisrc, hpos, hctr, hmod, hset]
    have hlen' : ((done ++ [src[i]]) ++ rest').length < DWORD_RANGE := by
      simpa using hlen
    have hm' : rest'.length = m := by simpa using hm
    have hlt' : rest'.length < bound - (i + 1) := by
      simp only [List.length_cons] at hlt
      omega
    exact ih (i + 1) (done ++ [src[i]]) rest' (log ++ [done.length]) hm' (by omega) hlen' hlt'

/-- The form of `copyLoop_fault` used to chain the loops of the encoder: a loop
started inside the vector either faults on the vector or completes, leaving
the length of the vector unchanged and the position advanced by `bound`. -/
theorem copyLoop_step (counterRange : Nat) (src : List Nat) (bound : Nat)
    (hsrc : bound ≤ src.length) (hrange : bound < counterRange)
    (w : Writer) (hp : w.fileCurrentWritingPosition ≤ w.audioFileContent.length)
    (hlen : w.audioFileContent.length < DWORD_RANGE) :
    copyLoop counterRange src bound 0 w = .error .vectorIndexOutOfRange ∨
    ∃ w', copyLoop counterRange src bound 0 w = .ok w' ∧
      w'.audioFileContent.length = w.audioFileContent.length ∧
      w'.fileCurrentWritingPosition = w.fileCurrentWritingPosition + bound ∧
      w'.fileCurrentWritingPosition ≤ w'.audioFileContent.length := by
  obtain ⟨c, p, l⟩ := w
  simp only at hp hlen
  have hsplit : c = c.take p ++ c.drop p := (List.take_append_drop p c).symm
  have htake : (c.take p).length = p := by simp [Nat.min_eq_left hp]
  have hdroplen : (c.drop p).length = c.length - p := by simp
  have hlen' : (c.take p ++ c.drop p).length < DWORD_RANGE := by
    rw [List.take_append_drop]; exact hlen
  by_cases hk : bound ≤ (c.drop p).length
  · right
    have h := copyLoop_ok counterRange src bound hsrc hrange bound 0 (c.take p) (c.drop p) l rfl
      (Nat.zero_le _) hlen' hk
    rw [List.take_append_drop, htake] at h
    refine ⟨_, h, ?_, rfl, ?_⟩
    · simp [Nat.min_eq_left hp, Nat.min_eq_left hsrc]
      omega
    · simp [Nat.min_eq_left hp, Nat.min_eq_left hsrc]
  · left
    have h := copyLoop_fault counterRange src bound hsrc hrange _ 0 (c.take p) (c.drop p) l rfl
      (Nat.zero_le _) hlen' (by omega)
    rw [List.take_append_drop, htake] at h
    exact h

/-! ## The encoder as a whole -/

theorem length_dwordArrayBytes (xs : List Nat) : (dwordArrayBytes xs).length = 4 * xs.length := by
  induction xs with
  | nil => rfl
  | cons x xs ih =>
    simp only [dwordArrayBytes, List.flatMap_cons, List.length_append, length_objectBytes,
      List.length_cons] at ih ⊢
    omega

theorem length_headerBytes (audioDataFormat : WAVEFORMATEX) (audioDataBufferSize : Nat) :
    (headerBytes audioDataFormat audioDataBufferSize).length = 44 := by
  simp [headerBytes, length_dwordArrayBytes, length_objectBytes, riffChunkDescriptor, subchunk1,
    subchunk2]

theorem allocatedSize_of_fits (n : Nat) (h : 44 + n < 2 ^ 32) : allocatedSize n = 44 + n := by
  unfold allocatedSize DWORD_RANGE
  omega

theorem allocatedSize_of_wrap (n : Nat) (h : n < 2 ^ 32) (hw : 2 ^ 32 ≤ 44 + n) :
    allocatedSize n = 44 + n - 2 ^ 32 := by
  unfold allocatedSize DWORD_RANGE
  omega

theorem range_glue (a m b k : Nat) (h : b = a + m) :
    List.range' a m ++ List.range' b k = List.range' a (m + k) := by
  subst h
  rw [Nat.add_comm m k, ← List.range'_append a m k 1, Nat.one_mul]

/-- The form of `copyLoop_ok` used to chain the loops of the encoder on a
vector whose unwritten part is still zero-filled: `p` bytes are written, the
loop adds the bytes `taken` and leaves `room` zero bytes. -/
theorem copyLoop_fill (counterRange : Nat) (src : List Nat) (bound : Nat) (taken : List Nat)
    (htaken : src.take bound = taken)
    (hsrc : bound ≤ src.length) (hrange : bound < counterRange)
    (done : List Nat) (room p : Nat) (hp : done.length = p)
    (hlen : p + bound + room < DWORD_RANGE) :
    copyLoop counterRange src bound 0
        { audioFileContent := done ++ List.replicate (bound + room) 0
          fileCurrentWritingPosition := p
          written := List.range p } =
      .ok { audioFileContent := (done ++ taken) ++ List.replicate room 0
            fileCurrentWritingPosition := p + bound
            written := List.range (p + bound) } := by
  subst hp htaken
  rw [copyLoop_ok counterRange src bound hsrc hrange bound 0 done _ _ rfl (Nat.zero_le _)
    (by simp only [List.length_append, List.length_replicate]; omega)
    (by simp only [List.length_replicate]; omega)]
  have hlog : List.range done.length ++ List.range' done.length bound =
      List.range (done.length + bound) := by
    rw [List.range_eq_range', List.range_eq_range', range_glue 0 done.length done.length bound
      (Nat.zero_add _).symm]
  simp only [List.drop_zero, List.drop_replicate, Nat.add_sub_cancel_left, List.append_assoc, hlog]

/-- The same, for a loop followed by the rest of the function. -/
theorem copyLoop_fill_bind (counterRange : Nat) (src : List Nat) (bound : Nat) (taken : List Nat)
    (htaken : src.take bound = taken)
    (hsrc : bound ≤ src.length) (hrange : bound < counterRange)
    (done : List Nat) (room p : Nat) (hp : done.length = p)
    (hlen : p + bound + room < DWORD_RANGE)
    (f : Writer → Except Fault Writer) :
    (copyLoop counterRange src bound 0
        { audioFileContent := done ++ List.replicate (bound + room) 0
          fileCurrentWritingPosition := p
          written := List.range p } >>= f) =
      f { audioFileContent := (done ++ taken) ++ List.replicate room 0
          fileCurrentWritingPosition := p + bound
          written := List.range (p + bound) } := by
  rw [copyLoop_fill counterRange src bound taken htaken hsrc hrange done room p hp hlen]
  rfl

/-- The first loop, which starts on the freshly constructed vector. -/
theorem copyLoop_fill_first (counterRange : Nat) (src : List Nat) (bound : Nat)
    (taken : List Nat) (htaken : src.take bound = taken)
    (hsrc : bound ≤ src.length) (hrange : bound < counterRange)
    (room : Nat) (hlen : bound + room < DWORD_RANGE)
    (f : Writer → Except Fault Writer) :
    (copyLoop counterRange src bound 0
        { audioFileContent := List.replicate (bound + room) 0
          fileCurrentWritingPosition := 0
          written := [] } >>= f) =
      f { audioFileContent := taken ++ List.replicate room 0
          fileCurrentWritingPosition := bound
          written := List.range bound } := by
  have h := copyLoop_fill_bind counterRange src bound taken htaken hsrc hrange [] room 0 rfl
    (by omega) f
  simpa using h

/-- The last loop, which fills the vector up to its end. -/
theorem copyLoop_fill_last (counterRange : Nat) (src : List Nat) (bound : Nat)
    (hsrc : bound ≤ src.length) (hrange : bound < counterRange)
    (done : List Nat) (p : Nat) (hp : done.length = p)
    (hlen : p + bound < DWORD_RANGE) :
    copyLoop counterRange src bound 0
        { audioFileContent := done ++ List.replicate bound 0
          fileCurrentWritingPosition := p
          written := List.range p } =
      .ok { audioFileContent := done ++ src.take bound
            fileCurrentWritingPosition := p + bound
            written := List.range (p + bound) } := by
  have h := copyLoop_fill counterRange src bound _ rfl hsrc hrange done 0 p hp (by omega)
  simpa using h

/-- When the file fits into 32 bits and the buffer holds `audioDataBufferSize`
bytes, the encoder finishes without fault: the vector is the header followed by
the first `audioDataBufferSize` bytes of the buffer, the position is the
vector's length, and the indices written are `0, 1, ..., 43 + size` in order. -/
theorem getAudioFileContentWriter_ok (audioDataFormat : WAVEFORMATEX) (audioDataBuffer : List Nat)
    (n : Nat) (hfit : 44 + n < 2 ^ 32) (hbuf : n ≤ audioDataBuffer.length) :
    getAudioFileContentWriter audioDataFormat audioDataBuffer n =
      .ok { audioFileContent := headerBytes audioDataFormat n ++ audioDataBuffer.take n
            fileCurrentWritingPosition := 44 + n
            written := List.range (44 + n) } := by
  have hD : DWORD_RANGE = 2 ^ 32 := rfl
  have hB : BYTE_RANGE = 256 := rfl
  have hriff : (dwordArrayBytes (riffChunkDescriptor n)).length = 12 := by
    simp [length_dwordArrayBytes, riffChunkDescriptor]
  have hs1 : (dwordArrayBytes subchunk1).length = 8 := by
    simp [length_dwordArrayBytes, subchunk1]
  have hs2 : (dwordArrayBytes (subchunk2 n)).length = 8 := by
    simp [length_dwordArrayBytes, subchunk2]
  have ht1 := List.take_of_length_le (Nat.le_of_eq hriff)
  have ht2 := List.take_of_length_le (Nat.le_of_eq hs1)
  have ht3 := List.take_of_length_le (Nat.le_of_eq hs2)
  have ht4 : ∀ x, List.take 2 (objectBytes 2 x) = objectBytes 2 x := fun x =>
    List.take_of_length_le (Nat.le_of_eq (length_objectBytes 2 x))
  have ht5 : ∀ x, List.take 4 (objectBytes 4 x) = objectBytes 4 x := fun x =>
    List.take_of_length_le (Nat.le_of_eq (length_objectBytes 4 x))
  have hroom : allocatedSize n = 12 + (8 + (2 + (2 + (4 + (4 + (2 + (2 + (8 + n)))))))) := by
    rw [allocatedSize_of_fits n hfit]
    omega
  have hend : 12 + 8 + 2 + 2 + 4 + 4 + 2 + 2 + 8 + n = 44 + n := by omega
  unfold getAudioFileContentWriter
  simp only []
  rw [positionLoop_eq_copyLoop _ _ _ _ rfl]
  simp only []
  rw [hroom]
  rw [copyLoop_fill_first DWORD_RANGE _ 12 _ ht1 (by omega) (by rw [hD]; omega) _
    (by rw [hD]; omega)]
  rw [copyLoop_fill_bind BYTE_RANGE _ 8 _ ht2 (by omega) (by rw [hB]; omega) _ _ _
    hriff (by rw [hD]; omega)]
  rw [copyLoop_fill_bind BYTE_RANGE _ 2 _ (ht4 _) (by rw [length_objectBytes])
    (by rw [hB]; omega) _ _ _
    (by simp only [List.length_append, hriff, hs1]) (by rw [hD]; omega)]
  rw [copyLoop_fill_bind BYTE_RANGE _ 2 _ (ht4 _) (by rw [length_objectBytes])
    (by rw [hB]; omega) _ _ _
    (by simp only [List.length_append, hriff, hs1, length_objectBytes]) (by rw [hD]; omega)]
  rw [copyLoop_fill_bind BYTE_RANGE _ 4 _ (ht5 _) (by rw [length_objectBytes])
    (by rw [hB]; omega) _ _ _
    (by simp only [List.length_append, hriff, hs1, length_objectBytes]) (by rw [hD]; omega)]
  rw [copyLoop_fill_bind BYTE_RANGE _ 4 _ (ht5 _) (by rw [length_objectBytes])
    (by rw [hB]; omega) _ _ _
    (by simp only [List.length_append, hriff, hs1, length_objectBytes]) (by rw [hD]; omega)]
  rw [copyLoop_fill_bind BYTE_RANGE _ 2 _ (ht4 _) (by rw [length_objectBytes])
    (by rw [hB]; omega) _ _ _
    (by simp only [List.length_append, hriff, hs1, length_objectBytes]) (by rw [hD]; omega)]
  rw [copyLoop_fill_bind BYTE_RANGE _ 2 _ (ht4 _) (by rw [length_objectBytes])
    (by rw [hB]; omega) _ _ _
    (by simp only [List.length_append, hriff, hs1, length_objectBytes]) (by rw [hD]; omega)]
  rw [copyLoop_fill_bind BYTE_RANGE _ 8 _ ht3 (by omega) (by rw [hB]; omega) _ n _
    (by simp only [List.length_append, hriff, hs1, length_objectBytes]) (by rw [hD]; omega)]
  rw [copyLoop_fill_last DWORD_RANGE _ n hbuf (by rw [hD]; omega) _ _
    (by simp only [List.length_append, hriff, hs1, hs2, length_objectBytes])
    (by rw [hD]; omega)]
  rw [hend]
  unfold headerBytes
  rfl

/-- A loop followed by a continuation that faults on every writer the loop can
leave behind faults as a whole. -/
theorem copyLoop_bind_fault (counterRange : Nat) (src : List Nat) (bound : Nat)
    (hsrc : bound ≤ src.length) (hrange : bound < counterRange)
    (w : Writer) (hp : w.fileCurrentWritingPosition ≤ w.audioFileContent.length)
    (hlen : w.audioFileContent.length < DWORD_RANGE)
    (f : Writer → Except Fault Writer)
    (hf : ∀ w' : Writer, w'.audioFileContent.length = w.audioFileContent.length →
      w'.fileCurrentWritingPosition = w.fileCurrentWritingPosition + bound →
      w'.fileCurrentWritingPosition ≤ w'.audioFileContent.length →
      f w' = .error .vectorIndexOutOfRange) :
    (copyLoop counterRange src bound 0 w >>= f) = .error .vectorIndexOutOfRange := by
  rcases copyLoop_step counterRange src bound hsrc hrange w hp hlen with h | ⟨w', h, h1, h2, h3⟩
  · rw [h]
    rfl
  · rw [h]
    exact hf w' h1 h2 h3

/-- When `44 + audioDataBufferSize` does not fit into 32 bits, the vector is
constructed with fewer than 44 bytes and one of the header loops writes
outside it. -/
theorem getAudioFileContentWriter_wrap (audioDataFormat : WAVEFORMATEX)
    (audioDataBuffer : List Nat) (n : Nat) (hn : n < 2 ^ 32) (hw : 2 ^ 32 ≤ 44 + n) :
    getAudioFileContentWriter audioDataFormat audioDataBuffer n =
      .error .vectorIndexOutOfRange := by
  have hD : DWORD_RANGE = 2 ^ 32 := rfl
  have hB : BYTE_RANGE = 256 := rfl
  have hriff : (dwordArrayBytes (riffChunkDescriptor n)).length = 12 := by
    simp [length_dwordArrayBytes, riffChunkDescriptor]
  have hs1 : (dwordArrayBytes subchunk1).length = 8 := by
    simp [length_dwordArrayBytes, subchunk1]
  have hs2 : (dwordArrayBytes (subchunk2 n)).length = 8 := by
    simp [length_dwordArrayBytes, subchunk2]
  have hL : allocatedSize n < 44 := by
    rw [allocatedSize_of_wrap n hn hw]
    omega
  unfold getAudioFileContentWriter
  simp only []
  rw [positionLoop_eq_copyLoop _ _ _ _ rfl]
  simp only []
  generalize hw0 : ({ audioFileContent := List.replicate (allocatedSize n) 0
                      fileCurrentWritingPosition := 0
                      written := [] } : Writer) = w0
  have l0 : w0.audioFileContent.length = allocatedSize n := by
    rw [← hw0]
    exact List.length_replicate _ _
  have p0 : w0.fileCurrentWritingPosition = 0 := by
    rw [← hw0]
  apply copyLoop_bind_fault DWORD_RANGE _ 12 (by omega) (by rw [hD]; omega) w0
    (by omega) (by rw [hD]; omega)
  intro w1 l1 p1 b1
  apply copyLoop_bind_fault BYTE_RANGE _ 8 (by omega) (by rw [hB]; omega) w1
    b1 (by rw [hD]; omega)
  intro w2 l2 p2 b2
  apply copyLoop_bind_fault BYTE_RANGE _ 2 (by rw [length_objectBytes]) (by rw [hB]; omega) w2
    b2 (by rw [hD]; omega)
  intro w3 l3 p3 b3
  apply copyLoop_bind_fault BYTE_RANGE _ 2 (by rw [length_objectBytes]) (by rw [hB]; omega) w3
    b3 (by rw [hD]; omega)
  intro w4 l4 p4 b4
  apply copyLoop_bind_fault BYTE_RANGE _ 4 (by rw [length_objectBytes]) (by rw [hB]; omega) w4
    b4 (by rw [hD]; omega)
  intro w5 l5 p5 b5
  apply copyLoop_bind_fault BYTE_RANGE _ 4 (by rw [length_objectBytes]) (by rw [hB]; omega) w5
    b5 (by rw [hD]; omega)
  intro w6 l6 p6 b6
  apply copyLoop_bind_fault BYTE_RANGE _ 2 (by rw [length_objectBytes]) (by rw [hB]; omega) w6
    b6 (by rw [hD]; omega)
  intro w7 l7 p7 b7
  apply copyLoop_bind_fault BYTE_RANGE _ 2 (by rw [length_objectBytes]) (by rw [hB]; omega) w7
    b7 (by rw [hD]; omega)
  intro w8 l8 p8 b8
  apply copyLoop_bind_fault BYTE_RANGE _ 8 (by omega) (by rw [hB]; omega) w8
    b8 (by rw [hD]; omega)
  intro w9 l9 p9 b9
  omega

/-! ## Object representations and the specification's encodings -/

theorem objectBytes_two (x : Nat) : objectBytes 2 x = LE16 x := by
  simp [objectBytes, byteOf, LE16, List.range_succ]

theorem objectBytes_four (x : Nat) : objectBytes 4 x = LE32 x := by
  simp [objectBytes, byteOf, LE32, List.range_succ]

theorem dwordArrayBytes_riffChunkDescriptor (n : Nat) (hfit : 44 + n < 2 ^ 32) :
    dwordArrayBytes (riffChunkDescriptor n) = ascii "RIFF" ++ LE32 (36 + n) ++ ascii "WAVE" := by
  have hmod : (36 + n) % DWORD_RANGE = 36 + n := Nat.mod_eq_of_lt (by unfold DWORD_RANGE; omega)
  have h1 : LE32 FFIR = ascii "RIFF" := by decide
  have h2 : LE32 EVAW = ascii "WAVE" := by decide
  simp only [dwordArrayBytes, riffChunkDescriptor, List.flatMap_cons, List.flatMap_nil,
    objectBytes_four, hmod, h1, h2, List.append_nil, List.append_assoc]

theorem dwordArrayBytes_subchunk1 : dwordArrayBytes subchunk1 = ascii "fmt " ++ LE32 16 := by
  decide

theorem dwordArrayBytes_subchunk2 (n : Nat) :
    dwordArrayBytes (subchunk2 n) = ascii "data" ++ LE32 n := by
  have h1 : LE32 ATAD = ascii "data" := by decide
  simp only [dwordArrayBytes, subchunk2, List.flatMap_cons, List.flatMap_nil,
    objectBytes_four, h1, List.append_nil]

theorem constructor_audioDataFormat (dev : Device) :
    (constructor dev).audioDataFormat = scenarioFormat := by
  simp [constructor, scenarioFormat, WAVE_FORMAT_PCM, SAMPLING_RATE, WORD_RANGE, DWORD_RANGE]

/-- The header written for the constructor's format is the one the
specification lists. -/
theorem headerBytes_constructor (dev : Device) (payload : List Nat)
    (hfit : 44 + payload.length < 2 ^ 32) :
    headerBytes (constructor dev).audioDataFormat payload.length ++ payload =
      specContainer payload := by
  have hrate : byteRate scenarioFormat = 176400 := by decide
  rw [constructor_audioDataFormat]
  unfold headerBytes specContainer
  rw [hrate, dwordArrayBytes_riffChunkDescriptor _ hfit, dwordArrayBytes_subchunk1,
    dwordArrayBytes_subchunk2]
  simp only [scenarioFormat, objectBytes_two, objectBytes_four, List.append_assoc]

/-! ## The encoder: results -/

theorem getAudioFileContent_ok (self : AudioRecorder) (audioDataBuffer : List Nat) (n : Nat)
    (hfit : 44 + n < 2 ^ 32) (hbuf : n ≤ audioDataBuffer.length) :
    self.getAudioFileContent audioDataBuffer n =
      .ok (headerBytes self.audioDataFormat n ++ audioDataBuffer.take n) := by
  unfold getAudioFileContent
  rw [getAudioFileContentWriter_ok _ _ _ hfit hbuf]

theorem getAudioFileContent_wrap (self : AudioRecorder) (audioDataBuffer : List Nat) (n : Nat)
    (hn : n < 2 ^ 32) (hw : 2 ^ 32 ≤ 44 + n) :
    self.getAudioFileContent audioDataBuffer n = .error .vectorIndexOutOfRange := by
  unfold getAudioFileContent
  rw [getAudioFileContentWriter_wrap _ _ _ hn hw]

/-- C1: for every payload of `n` bytes with `44 + n < 2^32`, the recorder
built by the constructor returns exactly `"RIFF" ++ LE32(36+n) ++ "WAVE" ++
"fmt " ++ LE32(16) ++ LE16(1) ++ LE16(2) ++ LE32(44100) ++ LE32(176400) ++
LE16(4) ++ LE16(16) ++ "data" ++ LE32(n) ++ payload`, whose bytes from offset
44 on are the payload; for the payload `[0,1,2,3]` this is the 48 bytes of the
concrete scenario. -/
theorem getAudioFileContent_eq_specContainer (dev : Device) (payload : List Nat)
    (hfit : 44 + payload.length < 2 ^ 32) :
    (constructor dev).getAudioFileContent payload payload.length = .ok (specContainer payload) ∧
    (specContainer payload).drop 44 = payload ∧
    (constructor dev).getAudioFileContent [0x00, 0x01, 0x02, 0x03] 4 = .ok scenarioContainer ∧
    scenarioContainer.length = 48 := by
  have hgen : ∀ p : List Nat, 44 + p.length < 2 ^ 32 →
      (constructor dev).getAudioFileContent p p.length = .ok (specContainer p) := by
    intro p hp
    rw [getAudioFileContent_ok _ _ _ hp (Nat.le_refl _), List.take_length,
      headerBytes_constructor dev p hp]
  refine ⟨hgen payload hfit, ?_, ?_, by decide⟩
  · have hsplit : specContainer payload =
        (ascii "RIFF" ++ LE32 (36 + payload.length) ++ ascii "WAVE" ++ ascii "fmt " ++ LE32 16 ++
          LE16 1 ++ LE16 2 ++ LE32 44100 ++ LE32 176400 ++ LE16 4 ++ LE16 16 ++ ascii "data" ++
          LE32 payload.length) ++ payload := rfl
    rw [hsplit]
    exact List.drop_left' (by simp [ascii, LE16, LE32])
  · have h := hgen [0x00, 0x01, 0x02, 0x03] (by decide)
    have hsc : specContainer [0x00, 0x01, 0x02, 0x03] = scenarioContainer := by decide
    rw [hsc] at h
    exact h

/-- Witness for C1: the concrete scenario's payload. -/
theorem getAudioFileContent_eq_specContainer_witness :
    44 + [0x00, 0x01, 0x02, 0x03].length < 2 ^ 32 ∧
    (constructor readyDevice).getAudioFileContent [0x00, 0x01, 0x02, 0x03]
      [0x00, 0x01, 0x02, 0x03].length = .ok (specContainer [0x00, 0x01, 0x02, 0x03]) :=
  ⟨by decide, (getAudioFileContent_eq_specContainer readyDevice [0x00, 0x01, 0x02, 0x03]
    (by decide)).1⟩

/-- C2 as stated fails: for a payload of `2^32 - 44` bytes, a length the
32-bit size parameter can carry, no vector of `44 + len` bytes is returned
(the vector is constructed with `(44 + len) mod 2^32 = 0` bytes and the first
write is outside it). -/
theorem getAudioFileContent_length_counterexample :
    (List.replicate 4294967252 (0 : Nat)).length < 2 ^ 32 ∧
    allocatedSize (List.replicate 4294967252 (0 : Nat)).length = 0 ∧
    ¬ ∃ out, (constructor readyDevice).getAudioFileContent (List.replicate 4294967252 0)
        (List.replicate 4294967252 (0 : Nat)).length = .ok out ∧
      out.length = 44 + (List.replicate 4294967252 (0 : Nat)).length := by
  rw [List.length_replicate]
  refine ⟨by decide, by decide, ?_⟩
  rw [getAudioFileContent_wrap _ _ _ (by decide) (by decide)]
  rintro ⟨out, h, _⟩
  cases h

/-- C2, amended: for every payload with `44 + len(bytes) < 2^32` the returned
vector has exactly `44 + len(bytes)` bytes, and for the empty payload it has
exactly 44 bytes. -/
theorem getAudioFileContent_length (self : AudioRecorder) (bytes : List Nat)
    (hfit : 44 + bytes.length < 2 ^ 32) :
    (∃ out, self.getAudioFileContent bytes bytes.length = .ok out ∧
      out.length = 44 + bytes.length) ∧
    (∃ out, self.getAudioFileContent [] 0 = .ok out ∧ out.length = 44) := by
  constructor
  · refine ⟨_, getAudioFileContent_ok self bytes _ hfit (Nat.le_refl _), ?_⟩
    rw [List.length_append, length_headerBytes, List.take_length]
  · refine ⟨_, getAudioFileContent_ok self [] 0 (by decide) (Nat.le_refl _), ?_⟩
    rw [List.length_append, length_headerBytes]
    rfl

/-- Witness for the amended C2: a payload of three bytes. -/
theorem getAudioFileContent_length_witness :
    44 + [7, 8, 9].length < 2 ^ 32 ∧
    ((∃ out, (constructor readyDevice).getAudioFileContent [7, 8, 9] [7, 8, 9].length = .ok out ∧
      out.length = 44 + [7, 8, 9].length) ∧
    (∃ out, (constructor readyDevice).getAudioFileContent [] 0 = .ok out ∧ out.length = 44)) :=
  ⟨by decide, getAudioFileContent_length (constructor readyDevice) [7, 8, 9] (by decide)⟩

theorem parseLE32_headerBytes (audioDataFormat : WAVEFORMATEX) (n : Nat) (tail : List Nat)
    (hfit : 44 + n < 2 ^ 32) :
    parseLE32 (headerBytes audioDataFormat n ++ tail) 4 = some (36 + n) := by
  have hriff : ascii "RIFF" = [0x52, 0x49, 0x46, 0x46] := by decide
  unfold headerBytes
  rw [dwordArrayBytes_riffChunkDescriptor n hfit, hriff]
  simp only [LE32, parseLE32, List.append_assoc, List.cons_append, List.nil_append,
    List.drop_succ_cons, List.drop_zero, Option.some.injEq]
  omega

/-- C3 as stated fails: for a payload of `2^32 - 36` bytes the size field the
encoder prepares is `(36 + len) mod 2^32 = 0`, and no container is returned
whose bytes 4..7 decode to `36 + len`. -/
theorem parseLE32_containerSize_counterexample :
    (List.replicate 4294967260 (0 : Nat)).length < 2 ^ 32 ∧
    riffChunkDescriptor (List.replicate 4294967260 (0 : Nat)).length = [FFIR, 0, EVAW] ∧
    ¬ ∃ out, (constructor readyDevice).getAudioFileContent (List.replicate 4294967260 0)
        (List.replicate 4294967260 (0 : Nat)).length = .ok out ∧
      parseLE32 out 4 = some (36 + (List.replicate 4294967260 (0 : Nat)).length) := by
  rw [List.length_replicate]
  refine ⟨by decide, by decide, ?_⟩
  rw [getAudioFileContent_wrap _ _ _ (by decide) (by decide)]
  rintro ⟨out, h, _⟩
  cases h

/-- C3, amended: for every payload with `44 + len(bytes) < 2^32`, decoding the
four bytes at offsets 4..7 of the returned container as a little-endian
unsigned 32-bit integer yields `36 + len(bytes)`. -/
theorem parseLE32_containerSize (self : AudioRecorder) (bytes : List Nat)
    (hfit : 44 + bytes.length < 2 ^ 32) :
    ∃ out, self.getAudioFileContent bytes bytes.length = .ok out ∧
      parseLE32 out 4 = some (36 + bytes.length) :=
  ⟨_, getAudioFileContent_ok self bytes _ hfit (Nat.le_refl _),
    parseLE32_headerBytes _ _ _ hfit⟩

/-- Witness for the amended C3: the payload of the concrete scenario, whose
size field decodes to 40. -/
theorem parseLE32_containerSize_witness :
    44 + [0x00, 0x01, 0x02, 0x03].length < 2 ^ 32 ∧
    ∃ out, (constructor readyDevice).getAudioFileContent [0x00, 0x01, 0x02, 0x03]
        [0x00, 0x01, 0x02, 0x03].length = .ok out ∧
      parseLE32 out 4 = some (36 + [0x00, 0x01, 0x02, 0x03].length) :=
  ⟨by decide, parseLE32_containerSize (constructor readyDevice) [0x00, 0x01, 0x02, 0x03]
    (by decide)⟩

/-- C8: the format descriptor built by the constructor satisfies
`nBlockAlign = nChannels * wBitsPerSample / 8` and
`nAvgBytesPerSec = nSamplesPerSec * nBlockAlign`, with values 4 and 176400; the
byte rate equals `AUDIO_DATA_BUFFER_LENGTH_FOR_1_SECOND_OF_RECORDING` and the
byte rate the encoder recomputes. -/
theorem constructor_format_invariants (dev : Device) :
    (constructor dev).audioDataFormat.nBlockAlign =
      (constructor dev).audioDataFormat.nChannels *
        (constructor dev).audioDataFormat.wBitsPerSample / 8 ∧
    (constructor dev).audioDataFormat.nAvgBytesPerSec =
      (constructor dev).audioDataFormat.nSamplesPerSec *
        (constructor dev).audioDataFormat.nBlockAlign ∧
    (constructor dev).audioDataFormat.nBlockAlign = 4 ∧
    (constructor dev).audioDataFormat.nAvgBytesPerSec = 176400 ∧
    (constructor dev).audioDataFormat.nAvgBytesPerSec =
      AUDIO_DATA_BUFFER_LENGTH_FOR_1_SECOND_OF_RECORDING ∧
    (constructor dev).audioDataFormat.nAvgBytesPerSec =
      byteRate (constructor dev).audioDataFormat ∧
    (constructor dev).audioDataFormat.wFormatTag = 1 ∧
    (constructor dev).audioDataFormat.nChannels = 2 ∧
    (constructor dev).audioDataFormat.nSamplesPerSec = 44100 ∧
    (constructor dev).audioDataFormat.wBitsPerSample = 16 := by
  rw [constructor_audioDataFormat]
  decide

/-- C10: for every payload length `n` with `44 + n < 2^32` the encoder ends
without a fault (no write outside the vector, no counter reaching the end of
its range), the vector has the `44 + n` bytes it was constructed with, the
indices written are `0, 1, ..., 43 + n` in this order (each once, each inside
the vector), the final writing position is the vector's length, and every
object copied under a `BYTE` counter has at most 8 bytes. -/
theorem getAudioFileContentWriter_writes (self : AudioRecorder) (payload : List Nat)
    (hfit : 44 + payload.length < 2 ^ 32) :
    ∃ w, getAudioFileContentWriter self.audioDataFormat payload payload.length = .ok w ∧
      allocatedSize payload.length = 44 + payload.length ∧
      w.audioFileContent.length = allocatedSize payload.length ∧
      w.written = List.range (44 + payload.length) ∧
      (∀ i ∈ w.written, i < w.audioFileContent.length) ∧
      w.written.Nodup ∧
      w.written.Sorted (· < ·) ∧
      w.fileCurrentWritingPosition = w.audioFileContent.length ∧
      (∀ b ∈ byteCounterBounds, b ≤ 8 ∧ b < BYTE_RANGE) := by
  have hlen : (headerBytes self.audioDataFormat payload.length ++
      payload.take payload.length).length = 44 + payload.length := by
    rw [List.length_append, length_headerBytes, List.take_length]
  refine ⟨_, getAudioFileContentWriter_ok _ _ _ hfit (Nat.le_refl _),
    allocatedSize_of_fits _ hfit, ?_, rfl, ?_, List.nodup_range _, ?_, ?_, by decide⟩
  · rw [allocatedSize_of_fits _ hfit]
    exact hlen
  · intro i hi
    simp only [hlen]
    exact List.mem_range.mp hi
  · exact List.sorted_lt_range _
  · exact hlen.symm

/-- Witness for C10: a payload of two bytes. -/
theorem getAudioFileContentWriter_writes_witness :
    44 + [5, 6].length < 2 ^ 32 ∧
    ∃ w, getAudioFileContentWriter (constructor readyDevice).audioDataFormat [5, 6]
        [5, 6].length = .ok w ∧
      w.written = List.range (44 + [5, 6].length) ∧
      w.fileCurrentWritingPosition = w.audioFileContent.length := by
  obtain ⟨w, h, _, _, hw, _, _, _, hp, _⟩ :=
    getAudioFileContentWriter_writes (constructor readyDevice) [5, 6] (by decide)
  exact ⟨by decide, w, h, hw, hp⟩

/-! ## The capture transaction: results -/

/-- The waiting loop ends at the first evaluation that finds the done flag,
provided the fuel reaches that far. -/
theorem waitLoop_found (dwFlagsAt : Nat → Nat) (t : Nat)
    (hdone : dwFlagsAt t &&& WHDR_DONE ≠ 0) :
    ∀ (fuel s : Nat), s ≤ t → t - s < fuel →
      (∀ u, s ≤ u → u < t → dwFlagsAt u &&& WHDR_DONE = 0) →
      waitLoop dwFlagsAt fuel s = some t := by
  intro fuel
  induction fuel with
  | zero =>
    intro s _ hfuel _
    omega
  | succ fuel ih =>
    intro s hst hfuel hwait
    by_cases heq : s = t
    · subst heq
      simp [waitLoop, hdone]
    · have hlt : s < t := by omega
      simp only [waitLoop, hwait s (Nat.le_refl _) hlt, if_true]
      exact ih (s + 1) (by omega) (by omega) (fun u hu hut => hwait u (by omega) hut)

theorem length_captureBuffer (dev : Device) (lpData dwBufferLength : Nat) (h : lpData ≠ 0) :
    (captureBuffer dev lpData dwBufferLength).length = dwBufferLength := by
  unfold captureBuffer
  rw [if_neg h, List.length_map, List.length_range]

theorem record_prepare_failed (self : AudioRecorder) (dev : Device) (fuel duration : Nat)
    (hprepare : dev.waveInPrepareHeaderResult ≠ MMSYSERR_NOERROR) :
    record self dev fuel duration =
      { trace :=
          [Call.malloc (AUDIO_DATA_BUFFER_LENGTH_FOR_1_SECOND_OF_RECORDING * duration % DWORD_RANGE),
           Call.waveInPrepareHeader self.audioDeviceHandle dev.mallocResult
             (AUDIO_DATA_BUFFER_LENGTH_FOR_1_SECOND_OF_RECORDING * duration % DWORD_RANGE) 0,
           Call.free dev.mallocResult]
        outcome := .thrown (.waveInPrepareHeaderFailed dev.waveInPrepareHeaderResult) } := by
  simp [record, hprepare]

theorem record_queue_failed (self : AudioRecorder) (dev : Device) (fuel duration : Nat)
    (hprepare : dev.waveInPrepareHeaderResult = MMSYSERR_NOERROR)
    (hqueue : dev.waveInAddBufferResult ≠ MMSYSERR_NOERROR) :
    record self dev fuel duration =
      { trace :=
          [Call.malloc (AUDIO_DATA_BUFFER_LENGTH_FOR_1_SECOND_OF_RECORDING * duration % DWORD_RANGE),
           Call.waveInPrepareHeader self.audioDeviceHandle dev.mallocResult
             (AUDIO_DATA_BUFFER_LENGTH_FOR_1_SECOND_OF_RECORDING * duration % DWORD_RANGE) 0,
           Call.waveInAddBuffer self.audioDeviceHandle,
           Call.waveInUnprepareHeader self.audioDeviceHandle,
           Call.free dev.mallocResult]
        outcome := .thrown (.waveInAddBufferFailed dev.waveInAddBufferResult) } := by
  simp [record, hprepare, hqueue]

theorem record_start_failed (self : AudioRecorder) (dev : Device) (fuel duration : Nat)
    (hprepare : dev.waveInPrepareHeaderResult = MMSYSERR_NOERROR)
    (hqueue : dev.waveInAddBufferResult = MMSYSERR_NOERROR)
    (hstart : dev.waveInStartResult ≠ MMSYSERR_NOERROR) :
    record self dev fuel duration =
      { trace :=
          [Call.malloc (AUDIO_DATA_BUFFER_LENGTH_FOR_1_SECOND_OF_RECORDING * duration % DWORD_RANGE),
           Call.waveInPrepareHeader self.audioDeviceHandle dev.mallocResult
             (AUDIO_DATA_BUFFER_LENGTH_FOR_1_SECOND_OF_RECORDING * duration % DWORD_RANGE) 0,
           Call.waveInAddBuffer self.audioDeviceHandle,
           Call.waveInStart self.audioDeviceHandle,
           Call.waveInReset self.audioDeviceHandle,
           Call.waveInUnprepareHeader self.audioDeviceHandle,
           Call.free dev.mallocResult]
        outcome := .thrown (.waveInStartFailed dev.waveInStartResult) } := by
  simp [record, hprepare, hqueue, hstart]

theorem record_started (self : AudioRecorder) (dev : Device) (fuel duration t : Nat)
    (hprepare : dev.waveInPrepareHeaderResult = MMSYSERR_NOERROR)
    (hqueue : dev.waveInAddBufferResult = MMSYSERR_NOERROR)
    (hstart : dev.waveInStartResult = MMSYSERR_NOERROR)
    (hwait : waitLoop dev.dwFlagsAt fuel 0 = some t) :
    record self dev fuel duration =
      match self.getAudioFileContent (captureBuffer dev dev.mallocResult
          (AUDIO_DATA_BUFFER_LENGTH_FOR_1_SECOND_OF_RECORDING * duration % DWORD_RANGE))
          dev.dwBytesRecorded with
      | .error fault =>
        { trace :=
            [Call.malloc
               (AUDIO_DATA_BUFFER_LENGTH_FOR_1_SECOND_OF_RECORDING * duration % DWORD_RANGE),
             Call.waveInPrepareHeader self.audioDeviceHandle dev.mallocResult
               (AUDIO_DATA_BUFFER_LENGTH_FOR_1_SECOND_OF_RECORDING * duration % DWORD_RANGE) 0,
             Call.waveInAddBuffer self.audioDeviceHandle,
             Call.waveInStart self.audioDeviceHandle] ++
            List.replicate t (Call.Sleep 1) ++
            [Call.waveInReset self.audioDeviceHandle,
             Call.getAudioFileContent dev.mallocResult dev.dwBytesRecorded]
          outcome := .undefinedBehaviour fault }
      | .ok audioFileContent =>
        { trace :=
            [Call.malloc
               (AUDIO_DATA_BUFFER_LENGTH_FOR_1_SECOND_OF_RECORDING * duration % DWORD_RANGE),
             Call.waveInPrepareHeader self.audioDeviceHandle dev.mallocResult
               (AUDIO_DATA_BUFFER_LENGTH_FOR_1_SECOND_OF_RECORDING * duration % DWORD_RANGE) 0,
             Call.waveInAddBuffer self.audioDeviceHandle,
             Call.waveInStart self.audioDeviceHandle] ++
            List.replicate t (Call.Sleep 1) ++
            [Call.waveInReset self.audioDeviceHandle,
             Call.getAudioFileContent dev.mallocResult dev.dwBytesRecorded,
             Call.waveInUnprepareHeader self.audioDeviceHandle,
             Call.free dev.mallocResult]
          outcome := .returned audioFileContent } := by
  simp only [record, hprepare, hqueue, hstart, hwait, ne_eq, not_true_eq_false, if_false]
  cases self.getAudioFileContent (captureBuffer dev dev.mallocResult
      (AUDIO_DATA_BUFFER_LENGTH_FOR_1_SECOND_OF_RECORDING * duration % DWORD_RANGE))
      dev.dwBytesRecorded with
  | error fault => simp
  | ok audioFileContent => simp

/-- Whatever the device answers, `record` first asks `malloc` for
`176400 * duration mod 2^32` bytes and then prepares a header with that
`dwBufferLength`. -/
theorem record_trace_head (self : AudioRecorder) (dev : Device) (fuel duration : Nat) :
    ∃ rest, (record self dev fuel duration).trace =
      Call.malloc (AUDIO_DATA_BUFFER_LENGTH_FOR_1_SECOND_OF_RECORDING * duration % DWORD_RANGE) ::
      Call.waveInPrepareHeader self.audioDeviceHandle dev.mallocResult
        (AUDIO_DATA_BUFFER_LENGTH_FOR_1_SECOND_OF_RECORDING * duration % DWORD_RANGE) 0 ::
      rest := by
  by_cases hprepare : dev.waveInPrepareHeaderResult = MMSYSERR_NOERROR
  · by_cases hqueue : dev.waveInAddBufferResult = MMSYSERR_NOERROR
    · by_cases hstart : dev.waveInStartResult = MMSYSERR_NOERROR
      · cases hwait : waitLoop dev.dwFlagsAt fuel 0 with
        | none =>
          simp only [record, hprepare, hqueue, hstart, hwait, ne_eq, not_true_eq_false, if_false]
          exact ⟨_, rfl⟩
        | some t =>
          rw [record_started self dev fuel duration t hprepare hqueue hstart hwait]
          cases self.getAudioFileContent (captureBuffer dev dev.mallocResult
              (AUDIO_DATA_BUFFER_LENGTH_FOR_1_SECOND_OF_RECORDING * duration % DWORD_RANGE))
              dev.dwBytesRecorded with
          | error fault => exact ⟨_, rfl⟩
          | ok audioFileContent => exact ⟨_, rfl⟩
      · rw [record_start_failed self dev fuel duration hprepare hqueue hstart]
        exact ⟨_, rfl⟩
    · rw [record_queue_failed self dev fuel duration hprepare hqueue]
      exact ⟨_, rfl⟩
  · rw [record_prepare_failed self dev fuel duration hprepare]
    exact ⟨_, rfl⟩

/-- C4: when `waveInPrepareHeader`, `waveInAddBuffer` or `waveInStart` reports
an error, `record` ends by throwing the error of the first failing stage, the
trace contains exactly one call of `free`, which is `free` of the capture
buffer, and it contains `waveInReset` whenever the buffer had been queued
successfully before the failure. -/
theorem record_failure_cleanup (self : AudioRecorder) (dev : Device) (fuel duration : Nat)
    (hfail : dev.waveInPrepareHeaderResult ≠ MMSYSERR_NOERROR ∨
      dev.waveInAddBufferResult ≠ MMSYSERR_NOERROR ∨
      dev.waveInStartResult ≠ MMSYSERR_NOERROR) :
    (record self dev fuel duration).outcome =
      .thrown
        (if dev.waveInPrepareHeaderResult ≠ MMSYSERR_NOERROR then
          .waveInPrepareHeaderFailed dev.waveInPrepareHeaderResult
        else if dev.waveInAddBufferResult ≠ MMSYSERR_NOERROR then
          .waveInAddBufferFailed dev.waveInAddBufferResult
        else .waveInStartFailed dev.waveInStartResult) ∧
    (record self dev fuel duration).trace.countP Call.isFree = 1 ∧
    (record self dev fuel duration).trace.count (Call.free dev.mallocResult) = 1 ∧
    Call.malloc (AUDIO_DATA_BUFFER_LENGTH_FOR_1_SECOND_OF_RECORDING * duration % DWORD_RANGE) ∈
      (record self dev fuel duration).trace ∧
    (dev.waveInPrepareHeaderResult = MMSYSERR_NOERROR ∧
        dev.waveInAddBufferResult = MMSYSERR_NOERROR →
      Call.waveInReset self.audioDeviceHandle ∈ (record self dev fuel duration).trace) := by
  by_cases hprepare : dev.waveInPrepareHeaderResult = MMSYSERR_NOERROR
  · by_cases hqueue : dev.waveInAddBufferResult = MMSYSERR_NOERROR
    · have hstart : dev.waveInStartResult ≠ MMSYSERR_NOERROR := by
        rcases hfail with h | h | h
        · exact absurd hprepare h
        · exact absurd hqueue h
        · exact h
      rw [record_start_failed self dev fuel duration hprepare hqueue hstart]
      simp [hprepare, hqueue, Call.isFree, List.countP_cons, List.count_cons]
    · rw [record_queue_failed self dev fuel duration hprepare hqueue]
      simp [hprepare, hqueue, Call.isFree, List.countP_cons, List.count_cons]
  · rw [record_prepare_failed self dev fuel duration hprepare]
    simp [hprepare, Call.isFree, List.countP_cons, List.count_cons]

/-- Witness for C4: a failure injected at each of the three stages. -/
theorem record_failure_cleanup_witness :
    ((record (constructor prepareFailingDevice) prepareFailingDevice 1 1).trace.countP
        Call.isFree = 1) ∧
    ((record (constructor queueFailingDevice) queueFailingDevice 1 1).trace.countP
        Call.isFree = 1) ∧
    ((record (constructor startFailingDevice) startFailingDevice 1 1).trace.countP
        Call.isFree = 1 ∧
      Call.waveInReset (constructor startFailingDevice).audioDeviceHandle ∈
        (record (constructor startFailingDevice) startFailingDevice 1 1).trace) :=
  ⟨(record_failure_cleanup (constructor prepareFailingDevice) prepareFailingDevice 1 1
      (Or.inl (by decide))).2.1,
   (record_failure_cleanup (constructor queueFailingDevice) queueFailingDevice 1 1
      (Or.inr (Or.inl (by decide)))).2.1,
   (record_failure_cleanup (constructor startFailingDevice) startFailingDevice 1 1
      (Or.inr (Or.inr (by decide)))).2.1,
   (record_failure_cleanup (constructor startFailingDevice) startFailingDevice 1 1
      (Or.inr (Or.inr (by decide)))).2.2.2.2 ⟨by decide, by decide⟩⟩

/-- C5 fails on the code: after `waveInOpen` has failed, the constructor keeps
the null handle without reporting anything, and `record` allocates the buffer
first, calls `waveInPrepareHeader` on the null handle and reports that call's
failure; no exception of `record` is the specification's `DeviceUnavailable`,
and whatever the device answers the first call of `record` is `malloc`. -/
theorem record_absentDevice :
    absentDevice.waveInOpenResult ≠ MMSYSERR_NOERROR ∧
    (constructor absentDevice).audioDeviceHandle = 0 ∧
    record (constructor absentDevice) absentDevice 1 1 =
      { trace := [Call.malloc 176400, Call.waveInPrepareHeader 0 4096 176400 0, Call.free 4096]
        outcome := .thrown (.waveInPrepareHeaderFailed 5) } ∧
    (∀ what : RuntimeError, errorKind what ≠ .DeviceUnavailable) ∧
    (∀ (self : AudioRecorder) (dev : Device) (fuel duration : Nat),
      (record self dev fuel duration).trace.head? =
        some (Call.malloc
          (AUDIO_DATA_BUFFER_LENGTH_FOR_1_SECOND_OF_RECORDING * duration % DWORD_RANGE))) := by
  refine ⟨by decide, by decide, by decide, ?_, ?_⟩
  · intro what
    cases what <;> simp [errorKind]
  · intro self dev fuel duration
    obtain ⟨rest, h⟩ := record_trace_head self dev fuel duration
    rw [h]
    rfl

/-- C9 fails on the code: the result of `malloc` is not looked at. With a null
result `record` still calls `waveInPrepareHeader`, with `lpData` null, and what
it reports is that call's failure; no exception of `record` is the
specification's `OutOfMemory`, and whatever `malloc` returned the header is
prepared with it. -/
theorem record_outOfMemoryDevice :
    outOfMemoryDevice.mallocResult = 0 ∧
    record (constructor outOfMemoryDevice) outOfMemoryDevice 1 1 =
      { trace := [Call.malloc 176400, Call.waveInPrepareHeader 1 0 176400 0, Call.free 0]
        outcome := .thrown (.waveInPrepareHeaderFailed 11) } ∧
    (∀ what : RuntimeError, errorKind what ≠ .OutOfMemory) ∧
    (∀ (self : AudioRecorder) (dev : Device) (fuel duration : Nat),
      Call.waveInPrepareHeader self.audioDeviceHandle dev.mallocResult
        (AUDIO_DATA_BUFFER_LENGTH_FOR_1_SECOND_OF_RECORDING * duration % DWORD_RANGE) 0 ∈
        (record self dev fuel duration).trace) := by
  refine ⟨by decide, by decide, ?_, ?_⟩
  · intro what
    cases what <;> simp [errorKind]
  · intro self dev fuel duration
    obtain ⟨rest, h⟩ := record_trace_head self dev fuel duration
    rw [h]
    simp

/-- C7 as stated fails: for the duration 24348 the product `176400 * 24348`
exceeds 32 bits; the buffer requested and the header's `dwBufferLength` are
19904, not `176400 * 24348`. -/
theorem record_bufferLength_counterexample :
    0 < 24348 ∧ 24348 < 2 ^ 32 ∧
    (∃ rest, (record (constructor readyDevice) readyDevice 1 24348).trace =
      Call.malloc 19904 :: Call.waveInPrepareHeader 1 4096 19904 0 :: rest) ∧
    ¬ ∃ rest, (record (constructor readyDevice) readyDevice 1 24348).trace =
      Call.malloc (176400 * 24348) ::
        Call.waveInPrepareHeader 1 4096 (176400 * 24348) 0 :: rest := by
  obtain ⟨rest, h⟩ := record_trace_head (constructor readyDevice) readyDevice 1 24348
  have hsize : AUDIO_DATA_BUFFER_LENGTH_FOR_1_SECOND_OF_RECORDING * 24348 % DWORD_RANGE =
      19904 := by decide
  have hhandle : (constructor readyDevice).audioDeviceHandle = 1 := by decide
  have hmalloc : readyDevice.mallocResult = 4096 := rfl
  rw [hsize, hhandle, hmalloc] at h
  refine ⟨by decide, by decide, ⟨rest, h⟩, ?_⟩
  rintro ⟨rest', h'⟩
  rw [h] at h'
  have hne : (19904 : Nat) ≠ 176400 * 24348 := by decide
  simp only [List.cons.injEq, Call.malloc.injEq] at h'
  exact hne h'.1

/-- C7, amended: for every positive duration with `176400 * duration < 2^32`
(that is, up to 24347 seconds) `record` requests a capture buffer of exactly
`176400 * duration` bytes and sets the header's `dwBufferLength` to that same
value. -/
theorem record_bufferLength (self : AudioRecorder) (dev : Device) (fuel duration : Nat)
    (_hpos : 0 < duration) (hfit : 176400 * duration < 2 ^ 32) :
    ∃ rest, (record self dev fuel duration).trace =
      Call.malloc (176400 * duration) ::
        Call.waveInPrepareHeader self.audioDeviceHandle dev.mallocResult
          (176400 * duration) 0 :: rest := by
  obtain ⟨rest, h⟩ := record_trace_head self dev fuel duration
  have hsize : AUDIO_DATA_BUFFER_LENGTH_FOR_1_SECOND_OF_RECORDING * duration % DWORD_RANGE =
      176400 * duration := by
    unfold AUDIO_DATA_BUFFER_LENGTH_FOR_1_SECOND_OF_RECORDING DWORD_RANGE
    exact Nat.mod_eq_of_lt hfit
  rw [hsize] at h
  exact ⟨rest, h⟩

/-- Witness for the amended C7: the duration 20 used by `main`. -/
theorem record_bufferLength_witness :
    0 < 20 ∧ 176400 * 20 < 2 ^ 32 ∧
    ∃ rest, (record (constructor readyDevice) readyDevice 1 20).trace =
      Call.malloc (176400 * 20) ::
        Call.waveInPrepareHeader (constructor readyDevice).audioDeviceHandle
          readyDevice.mallocResult (176400 * 20) 0 :: rest :=
  ⟨by decide, by decide,
    record_bufferLength (constructor readyDevice) readyDevice 1 20 (by decide) (by decide)⟩

/-- C6 as stated fails: with the duration 205642255 the buffer has
`2^32 - 16` bytes; when the device fills it completely, prepare, queue and
start succeed and the recorded count does not exceed the buffer length, yet
`record` returns no container of `44 + k` bytes: the encoder constructs a
vector of `(44 + k) mod 2^32 = 28` bytes and writes outside it. -/
theorem record_returns_recorded_counterexample :
    wrappingDevice.waveInPrepareHeaderResult = MMSYSERR_NOERROR ∧
    wrappingDevice.waveInAddBufferResult = MMSYSERR_NOERROR ∧
    wrappingDevice.waveInStartResult = MMSYSERR_NOERROR ∧
    wrappingDevice.dwFlagsAt 2 &&& WHDR_DONE ≠ 0 ∧
    wrappingDevice.dwBytesRecorded ≤
      (captureBuffer wrappingDevice wrappingDevice.mallocResult
        (AUDIO_DATA_BUFFER_LENGTH_FOR_1_SECOND_OF_RECORDING * wrappingDuration %
          DWORD_RANGE)).length ∧
    allocatedSize wrappingDevice.dwBytesRecorded = 28 ∧
    (record (constructor wrappingDevice) wrappingDevice 3 wrappingDuration).outcome =
      .undefinedBehaviour .vectorIndexOutOfRange ∧
    ¬ ∃ out, (record (constructor wrappingDevice) wrappingDevice 3 wrappingDuration).outcome =
        .returned out ∧ out.length = 44 + wrappingDevice.dwBytesRecorded := by
  have hwait : waitLoop wrappingDevice.dwFlagsAt 3 0 = some 2 := by decide
  have hout : (record (constructor wrappingDevice) wrappingDevice 3 wrappingDuration).outcome =
      .undefinedBehaviour .vectorIndexOutOfRange := by
    rw [record_started _ _ _ _ 2 (by decide) (by decide) (by decide) hwait,
      getAudioFileContent_wrap _ _ _ (by decide) (by decide)]
  refine ⟨by decide, by decide, by decide, by decide, ?_, by decide, hout, ?_⟩
  · rw [length_captureBuffer _ _ _ (by decide)]
    decide
  · rw [hout]
    rintro ⟨out, h, _⟩
    cases h

/-- C6, amended: when prepare, queue and start succeed, the device marks the
buffer done, and the recorded count `k` exceeds neither the buffer length nor
`2^32 - 45`, the returned container is `getAudioFileContent` applied to
exactly the first `k` bytes of the capture buffer and its length is `44 + k`. -/
theorem record_returns_recorded (self : AudioRecorder) (dev : Device) (fuel duration t : Nat)
    (hprepare : dev.waveInPrepareHeaderResult = MMSYSERR_NOERROR)
    (hqueue : dev.waveInAddBufferResult = MMSYSERR_NOERROR)
    (hstart : dev.waveInStartResult = MMSYSERR_NOERROR)
    (hpending : ∀ s, s < t → dev.dwFlagsAt s &&& WHDR_DONE = 0)
    (hdone : dev.dwFlagsAt t &&& WHDR_DONE ≠ 0)
    (hfuel : t < fuel)
    (hk : dev.dwBytesRecorded ≤
      (captureBuffer dev dev.mallocResult
        (AUDIO_DATA_BUFFER_LENGTH_FOR_1_SECOND_OF_RECORDING * duration % DWORD_RANGE)).length)
    (hfit : 44 + dev.dwBytesRecorded < 2 ^ 32) :
    ∃ out, (record self dev fuel duration).outcome = .returned out ∧
      self.getAudioFileContent
        ((captureBuffer dev dev.mallocResult
          (AUDIO_DATA_BUFFER_LENGTH_FOR_1_SECOND_OF_RECORDING * duration % DWORD_RANGE)).take
            dev.dwBytesRecorded) dev.dwBytesRecorded = .ok out ∧
      out.length = 44 + dev.dwBytesRecorded := by
  have hwait : waitLoop dev.dwFlagsAt fuel 0 = some t :=
    waitLoop_found dev.dwFlagsAt t hdone fuel 0 (Nat.zero_le _) (by omega)
      (fun u _ hut => hpending u hut)
  have htake : dev.dwBytesRecorded ≤
      ((captureBuffer dev dev.mallocResult
        (AUDIO_DATA_BUFFER_LENGTH_FOR_1_SECOND_OF_RECORDING * duration % DWORD_RANGE)).take
          dev.dwBytesRecorded).length := by
    rw [List.length_take, Nat.min_eq_left hk]
  refine ⟨_, ?_, getAudioFileContent_ok self _ _ hfit htake, ?_⟩
  · rw [record_started self dev fuel duration t hprepare hqueue hstart hwait,
      getAudioFileContent_ok self _ _ hfit hk, List.take_take, Nat.min_self]
  · rw [List.length_append, length_headerBytes, List.length_take, List.length_take,
      Nat.min_eq_left hk, Nat.min_self]

/-- Witness for the amended C6: a device that is done at the third look with
4 bytes recorded into a buffer for one second. -/
theorem record_returns_recorded_witness :
    ∃ out, (record (constructor slowDevice) slowDevice 3 1).outcome = .returned out ∧
      (constructor slowDevice).getAudioFileContent
        ((captureBuffer slowDevice slowDevice.mallocResult
          (AUDIO_DATA_BUFFER_LENGTH_FOR_1_SECOND_OF_RECORDING * 1 % DWORD_RANGE)).take
            slowDevice.dwBytesRecorded) slowDevice.dwBytesRecorded = .ok out ∧
      out.length = 44 + slowDevice.dwBytesRecorded :=
  record_returns_recorded (constructor slowDevice) slowDevice 3 1 2 (by decide) (by decide)
    (by decide) (by intro s hs; interval_cases s <;> decide) (by decide) (by decide)
    (by rw [length_captureBuffer _ _ _ (by decide)]; decide) (by decide)

end AudioRecorder
